import Mathlib

/-!
Verification of the sponsorship benefit selection and validation engine of the
pythondotorg sponsors application, as described by the repository specification
and exercised by src/sponsors/tests/test_forms.py, together with the read-only
field computations of src/sponsors/admin.py.

The forms module itself (sponsors/forms.py) is not part of the provided
sources; only its test suite and its admin callers are. Definitions for the
form behaviour are therefore modelled from the specification, with the test
suite fixing the concrete error messages and field layouts. Definitions taken
from src/sponsors/admin.py are translated directly from that file.
-/

namespace Sponsors

/-- A sponsorship program (SponsorshipProgram model): id and name. -/
structure Program where
  id : Nat
  name : String
deriving DecidableEq, Repr

/-- A sponsorship package (SponsorshipPackage model): id and the advertise flag. -/
structure Package where
  id : Nat
  advertise : Bool
deriving DecidableEq, Repr

/-- A sponsorship benefit (SponsorshipBenefit model): the fields relevant to
the benefit selection form. `packages` holds the ids of the packages that
include this benefit, `capacity` is the remaining capacity when one is set. -/
structure Benefit where
  id : Nat
  name : String
  description : String
  program : Nat
  packages : List Nat
  package_only : Bool
  capacity : Option Nat
  soft_capacity : Bool
deriving DecidableEq, Repr

/-- The in-memory catalog the form reads: programs, benefits, packages, and
the benefit conflict pairs as declared in the admin (one direction each). -/
structure Catalog where
  programs : List Program
  benefits : List Benefit
  packages : List Package
  declared_conflicts : List (Nat × Nat)
deriving DecidableEq, Repr

/-- Whether a conflict between benefits `a` and `b` is declared in either
direction. The Django many-to-many `conflicts` field on SponsorshipBenefit is
symmetrical, so a declaration in one direction relates both benefits. -/
def conflict_related (cat : Catalog) (a b : Nat) : Bool :=
  cat.declared_conflicts.any (fun p => (p.1 == a && p.2 == b) || (p.1 == b && p.2 == a))

/-- Modelled from the spec: the `benefits_conflicts` helper property of
SponsorshiptBenefitsForm (sponsors/forms.py, not in the provided sources)
returns, for a benefit id, the ids of the benefits it conflicts with; the
underlying dict maps each benefit with a non-empty conflict list to that list,
and lookups of absent keys default to the empty list. -/
def benefits_conflicts (cat : Catalog) (bid : Nat) : List Nat :=
  (cat.benefits.map Benefit.id).filter (fun oid => oid != bid && conflict_related cat bid oid)

/-- Find the catalog benefit with the given id. -/
def find_benefit (cat : Catalog) (bid : Nat) : Option Benefit :=
  cat.benefits.find? (fun b => b.id == bid)

/-- The benefit records selected by a submission, in submission order. -/
def selected_benefits (cat : Catalog) (sel : List Nat) : List Benefit :=
  sel.filterMap (find_benefit cat)

/-- Modelled from the spec: the `has_capacity` model property, as the capacity
check of the form reads it. A benefit is out of capacity when its remaining
capacity is zero, unless `soft_capacity` is set. -/
def has_capacity (b : Benefit) : Bool :=
  match b.capacity with
  | none => true
  | some c => decide (0 < c) || b.soft_capacity

/-- Error message for an empty benefit selection. -/
def msg_no_benefits : String := "You have to pick a minimum number of benefits."

/-- Error message for conflicting benefits in a selection. -/
def msg_conflicts : String := "The application has 1 or more benefits that conflicts."

/-- Error message for a package-only benefit without a package. -/
def msg_package_only_no_package : String :=
  "The application has 1 or more package only benefits and no sponsor package."

/-- Error message for a package-only benefit with the wrong package. -/
def msg_package_only_wrong_package : String :=
  "The application has 1 or more package only benefits but wrong sponsor package."

/-- Error message for a benefit with no remaining capacity. -/
def msg_no_capacity : String := "The application has 1 or more benefits with no capacity."

/-- Whether the conflict check fires for benefit id `bid` within selection
`sel`: some selected benefit appears in the conflict list of `bid`. -/
def conflict_violation (cat : Catalog) (sel : List Nat) (bid : Nat) : Bool :=
  (benefits_conflicts cat bid).any (fun c => sel.contains c)

/-- Whether the package-only check fires for benefit `b` given the chosen
package: `b` is package-only and either no package is chosen or the chosen
package does not include `b`. -/
def package_only_violation (pkg : Option Nat) (b : Benefit) : Bool :=
  b.package_only &&
    (match pkg with
     | none => true
     | some p => !(b.packages.contains p))

/-- Modelled from the spec: the form-level errors contributed by one selected
benefit during `_clean_benefits` of SponsorshiptBenefitsForm: the conflict
check, the package-only check and the capacity check, each with its message. -/
def benefit_errors (cat : Catalog) (pkg : Option Nat) (sel : List Nat) (b : Benefit) :
    List String :=
  (if conflict_violation cat sel b.id then [msg_conflicts] else []) ++
  (if b.package_only then
     match pkg with
     | none => [msg_package_only_no_package]
     | some p => if b.packages.contains p then [] else [msg_package_only_wrong_package]
   else []) ++
  (if has_capacity b then [] else [msg_no_capacity])

/-- Modelled from the spec: the form-level error list (the entry under the
"__all__" key of the error dictionary) produced by validating a benefit
selection on SponsorshiptBenefitsForm. An empty selection is rejected
outright; otherwise every selected benefit is checked for conflicts,
package-only constraints and capacity. -/
def clean_errors (cat : Catalog) (pkg : Option Nat) (sel : List Nat) : List String :=
  if sel.isEmpty then [msg_no_benefits]
  else (selected_benefits cat sel).flatMap (benefit_errors cat pkg sel)

/-- Whether the submitted selection passes form-level validation. -/
def is_valid_submission (cat : Catalog) (pkg : Option Nat) (sel : List Nat) : Bool :=
  (clean_errors cat pkg sel).isEmpty

/-- Whether any selected benefit trips the conflict check. -/
def any_conflict (cat : Catalog) (sel : List Nat) : Bool :=
  (selected_benefits cat sel).any (fun b => conflict_violation cat sel b.id)

/-- Whether any selected benefit trips the package-only check. -/
def any_package_only_violation (cat : Catalog) (pkg : Option Nat) (sel : List Nat) : Bool :=
  (selected_benefits cat sel).any (package_only_violation pkg)

/-- Whether any selected benefit trips the capacity check. -/
def any_capacity_violation (cat : Catalog) (sel : List Nat) : Bool :=
  (selected_benefits cat sel).any (fun b => !(has_capacity b))

/-- Modelled from the spec: the slug of a name as used for the per-program
field names of SponsorshiptBenefitsForm, with hyphens already replaced by
underscores: letters are lowercased and spaces become underscores, so that
the program named "Working Group" yields the field name suffix
"working_group". -/
def slug_under (s : String) : String :=
  String.mk (s.toList.map (fun c => if c == (' ') then ('_') else c.toLower))

/-- A choice field of the benefits form: its name, label and the benefit ids
offered as choices. -/
structure FormField where
  name : String
  label : String
  choices : List Nat
deriving DecidableEq, Repr

/-- The catalog benefits associated with at least one package. -/
def with_packages (cat : Catalog) : List Benefit :=
  cat.benefits.filter (fun b => !b.packages.isEmpty)

/-- Modelled from the spec: the per-program benefit fields built by the
constructor of SponsorshiptBenefitsForm (sponsors/forms.py, not in the
provided sources): one field per sponsorship program, named after the slug of
the program name, labelled with the program name followed by " Benefits", and
offering the package-associated benefits of that program as choices. -/
def program_fields (cat : Catalog) : List FormField :=
  cat.programs.map (fun p =>
    { name := ("benefits_") ++ slug_under p.name
      label := p.name ++ (" Benefits")
      choices := ((with_packages cat).filter (fun b => b.program == p.id)).map Benefit.id })

/-- Modelled from the spec: the choices of the `add_ons_benefits` field of
SponsorshiptBenefitsForm: the benefits associated with no package. -/
def add_ons_choices (cat : Catalog) : List Nat :=
  (cat.benefits.filter (fun b => b.packages.isEmpty)).map Benefit.id

/-- The kind of form field a required-asset configuration produces. -/
inductive AssetKind where
  | text
  | img
deriving DecidableEq, Repr

/-- A required asset attached to a sponsorship through the polymorphic
configuration of one of its benefits: primary key, internal name, and the
kind of input it asks for. -/
structure RequiredAsset where
  pk : Nat
  internal_name : String
  kind : AssetKind
deriving DecidableEq, Repr

/-- A sponsorship as seen by SponsorRequiredAssetsForm: the list of required
assets collected from its benefits. -/
structure SponsorshipAssets where
  required_assets : List RequiredAsset
deriving DecidableEq, Repr

/-- Modelled from the spec: the form field produced by a required asset via
`as_form_field`, identified here by its kind (text input or image input). -/
def as_form_field (a : RequiredAsset) : AssetKind :=
  a.kind

/-- Modelled from the spec: the required assets SponsorRequiredAssetsForm is
built from: all required assets of the sponsorship, or only the listed ones
when `required_assets_ids` is passed. -/
def form_assets (s : SponsorshipAssets) (ids : Option (List Nat)) : List RequiredAsset :=
  match ids with
  | none => s.required_assets
  | some l => s.required_assets.filter (fun a => l.contains a.pk)

/-- Modelled from the spec: the fields of SponsorRequiredAssetsForm, one per
selected required asset, keyed by the slug of the internal name and carrying
the field kind produced by the polymorphic configuration of the asset. -/
def required_form_fields (s : SponsorshipAssets) (ids : Option (List Nat)) :
    List (String × AssetKind) :=
  (form_assets s ids).map (fun a => (slug_under a.internal_name, as_form_field a))

/-- Modelled from the spec: the `has_input` property of
SponsorRequiredAssetsForm: whether the form has any field. -/
def has_input (s : SponsorshipAssets) (ids : Option (List Nat)) : Bool :=
  !(required_form_fields s ids).isEmpty

/-- The status values of a Sponsorship, as referenced by
src/sponsors/admin.py. -/
inductive SponsorshipStatus where
  | applied
  | approved
  | rejected
  | finalized
deriving DecidableEq, Repr

/-- The base read-only fields of SponsorshipAdmin, translated from
`SponsorshipAdmin.get_readonly_fields` in src/sponsors/admin.py. -/
def sponsorship_admin_base_readonly : List String :=
  [ ("for_modified_package")
  , ("sponsor")
  , ("status")
  , ("applied_on")
  , ("rejected_on")
  , ("approved_on")
  , ("finalized_on")
  , ("level_name")
  , ("get_estimated_cost")
  , ("get_sponsor_name")
  , ("get_sponsor_description")
  , ("get_sponsor_landing_page_url")
  , ("get_sponsor_web_logo")
  , ("get_sponsor_print_logo")
  , ("get_sponsor_primary_phone")
  , ("get_sponsor_mailing_address")
  , ("get_sponsor_contacts")
  , ("get_contract")
  ]

/-- The extra read-only fields added by `SponsorshipAdmin.get_readonly_fields`
when the sponsorship status differs from APPLIED (src/sponsors/admin.py). -/
def sponsorship_admin_extra_readonly : List String :=
  [("start_date"), ("end_date"), ("package"), ("level_name"), ("sponsorship_fee")]

/-- Translated from `SponsorshipAdmin.get_readonly_fields` in
src/sponsors/admin.py: the base fields always, extended with the editable
sponsorship data fields once the object exists and its status is not
APPLIED. -/
def sponsorship_admin_readonly_fields (obj : Option SponsorshipStatus) : List String :=
  sponsorship_admin_base_readonly ++
    (match obj with
     | some st => if st ≠ SponsorshipStatus.applied then sponsorship_admin_extra_readonly else []
     | none => [])

/-- The status values of a Contract. The draft status is the initial one. -/
inductive ContractStatus where
  | draft
  | awaiting_signature
  | executed
  | nullified
deriving DecidableEq, Repr

/-- Modelled from the spec: the `is_draft` property of the Contract model,
true exactly in the draft status. -/
def ContractStatus.is_draft (st : ContractStatus) : Bool :=
  st == ContractStatus.draft

/-- The base read-only fields of ContractModelAdmin, translated from
`ContractModelAdmin.get_readonly_fields` in src/sponsors/admin.py. -/
def contract_admin_base_readonly : List String :=
  [ ("status")
  , ("created_on")
  , ("last_update")
  , ("sent_on")
  , ("sponsorship")
  , ("revision")
  , ("document")
  , ("document_docx")
  , ("signed_document")
  , ("get_sponsorship_url")
  ]

/-- The editable content fields of a contract, made read-only by
`ContractModelAdmin.get_readonly_fields` once the contract is no longer a
draft (src/sponsors/admin.py). -/
def contract_admin_extra_readonly : List String :=
  [("sponsor_info"), ("sponsor_contact"), ("benefits_list"), ("legal_clauses")]

/-- Translated from `ContractModelAdmin.get_readonly_fields` in
src/sponsors/admin.py: the base fields always, extended with the editable
content fields once the object exists and is no longer a draft. -/
def contract_admin_readonly_fields (obj : Option ContractStatus) : List String :=
  contract_admin_base_readonly ++
    (match obj with
     | some st => if !st.is_draft then contract_admin_extra_readonly else []
     | none => [])

/-- The phases of the sponsorship lifecycle named by the specification. -/
inductive LifecyclePhase where
  | applyPhase
  | review
  | approveOrReject
  | contractPhase
  | finalize
deriving DecidableEq, Repr

/-- Modelled from the spec: the order of the sponsorship lifecycle, apply,
then review, then approve or reject, then contract, then finalize. -/
def phase_rank : LifecyclePhase → Nat
  | LifecyclePhase.applyPhase => 0
  | LifecyclePhase.review => 1
  | LifecyclePhase.approveOrReject => 2
  | LifecyclePhase.contractPhase => 3
  | LifecyclePhase.finalize => 4

/-- Modelled from the spec: the successor phases of each lifecycle phase. -/
def phase_step : LifecyclePhase → List LifecyclePhase
  | LifecyclePhase.applyPhase => [LifecyclePhase.review]
  | LifecyclePhase.review => [LifecyclePhase.approveOrReject]
  | LifecyclePhase.approveOrReject => [LifecyclePhase.contractPhase]
  | LifecyclePhase.contractPhase => [LifecyclePhase.finalize]
  | LifecyclePhase.finalize => []

/-- A catalog benefit as read by SponsorBenefitAdminInlineForm: identity,
descriptive fields and the benefit feature configurations that build the
features of a sponsor benefit. -/
structure CatalogBenefit where
  id : Nat
  name : String
  description : String
  program : Nat
  feature_configs : List AssetKind
deriving DecidableEq, Repr

/-- A SponsorBenefit row: the sponsorship it belongs to, the catalog benefit
it was copied from, the copied descriptive fields, the internal value and the
features built from the configurations of the catalog benefit. -/
structure SponsorBenefitRec where
  sponsorship : Nat
  sponsorship_benefit : Nat
  name : String
  description : String
  program : Nat
  benefit_internal_value : Int
  features : List AssetKind
deriving DecidableEq, Repr

/-- Modelled from the spec: saving SponsorBenefitAdminInlineForm over an
existing SponsorBenefit instance (sponsors/forms.py, not in the provided
sources). When the selected catalog benefit is the one already linked, only
the internal value is written; when a different catalog benefit is selected,
the descriptive fields are re-copied from it and the features are rebuilt
from its configurations. -/
def inline_form_save (inst : SponsorBenefitRec) (selected : CatalogBenefit)
    (value : Int) : SponsorBenefitRec :=
  if selected.id == inst.sponsorship_benefit then
    { inst with benefit_internal_value := value }
  else
    { inst with
      sponsorship_benefit := selected.id
      name := selected.name
      description := selected.description
      program := selected.program
      features := selected.feature_configs
      benefit_internal_value := value }

/-- The submitted data of SendSponsorshipNotificationForm: an optional
notification template, the custom content and subject (empty when not
supplied), and the chosen contact types. -/
structure NotificationFormData where
  notification : Option Nat
  content : String
  subject : String
  contact_types : List String
deriving DecidableEq, Repr

/-- A sponsor email notification: primary key when persisted, content and
subject. -/
structure EmailNotification where
  pk : Option Nat
  content : String
  subject : String
deriving DecidableEq, Repr

/-- Error message when both a template and custom content are supplied. -/
def msg_both_sources : String :=
  "You can not select a notification template and use custom content at the same time."

/-- Error message when neither a template nor custom content is supplied. -/
def msg_no_source : String :=
  "You have to select a notification template or supply custom content."

/-- Modelled from the spec: the form-level errors (the entry under the
"__all__" key) of SendSponsorshipNotificationForm (sponsors/forms.py, not in
the provided sources): supplying both a notification template and custom
content is an error, and so is supplying neither. -/
def send_form_level_errors (d : NotificationFormData) : List String :=
  match d.notification, d.content.isEmpty with
  | some _, false => [msg_both_sources]
  | none, true => [msg_no_source]
  | _, _ => []

/-- Modelled from the spec: whether SendSponsorshipNotificationForm
validates: no form-level error and at least one contact type chosen. -/
def send_form_is_valid (d : NotificationFormData) : Bool :=
  (send_form_level_errors d).isEmpty && !d.contact_types.isEmpty

/-- Modelled from the spec: `get_notification` of
SendSponsorshipNotificationForm: the chosen persisted template when one was
selected, otherwise an unsaved notification carrying the custom content and
subject. `templates` lists the persisted templates as primary key, content
and subject triples. -/
def get_notification (templates : List (Nat × String × String))
    (d : NotificationFormData) : Option EmailNotification :=
  match d.notification with
  | some pk =>
      (templates.find? (fun t => t.1 == pk)).map
        (fun t => { pk := some t.1, content := t.2.1, subject := t.2.2 })
  | none => some { pk := none, content := d.content, subject := d.subject }

/-! Helper lemmas about the validator. -/

theorem conflict_related_symm (cat : Catalog) (a b : Nat) :
    conflict_related cat a b = conflict_related cat b a := by
  simp only [conflict_related]
  congr 1
  funext p
  rw [Bool.or_comm]

theorem mem_benefits_conflicts (cat : Catalog) (b1 b2 : Nat) :
    b2 ∈ benefits_conflicts cat b1 ↔
      b2 ∈ cat.benefits.map Benefit.id ∧ b2 ≠ b1 ∧ conflict_related cat b1 b2 = true := by
  simp [benefits_conflicts, List.mem_filter, and_assoc]

theorem find_benefit_eq_some (cat : Catalog) (a : Nat) (br : Benefit)
    (h : find_benefit cat a = some br) : br ∈ cat.benefits ∧ br.id = a := by
  refine ⟨List.mem_of_find?_eq_some h, ?_⟩
  have := List.find?_some h
  simpa using this

theorem find_benefit_of_nodup (cat : Catalog) (br : Benefit)
    (hnodup : (cat.benefits.map Benefit.id).Nodup) (hmem : br ∈ cat.benefits) :
    find_benefit cat br.id = some br := by
  have hsome : (cat.benefits.find? (fun b => b.id == br.id)).isSome := by
    rw [List.find?_isSome]
    exact ⟨br, hmem, by simp⟩
  obtain ⟨br2, hbr2⟩ := Option.isSome_iff_exists.mp hsome
  have h2 := find_benefit_eq_some cat br.id br2 hbr2
  have : br2 = br := List.inj_on_of_nodup_map hnodup h2.1 hmem h2.2
  rw [find_benefit, hbr2, this]

theorem mem_selected_benefits_of (cat : Catalog) (sel : List Nat) (br : Benefit)
    (hnodup : (cat.benefits.map Benefit.id).Nodup) (hmem : br ∈ cat.benefits)
    (hsel : br.id ∈ sel) : br ∈ selected_benefits cat sel := by
  rw [selected_benefits, List.mem_filterMap]
  exact ⟨br.id, hsel, find_benefit_of_nodup cat br hnodup hmem⟩

theorem mem_selected_benefits (cat : Catalog) (sel : List Nat) (br : Benefit)
    (h : br ∈ selected_benefits cat sel) : br ∈ cat.benefits ∧ br.id ∈ sel := by
  rw [selected_benefits, List.mem_filterMap] at h
  obtain ⟨a, ha, hfind⟩ := h
  have := find_benefit_eq_some cat a br hfind
  exact ⟨this.1, this.2 ▸ ha⟩

theorem mem_clean_errors_of (cat : Catalog) (pkg : Option Nat) (sel : List Nat)
    (br : Benefit) (x : String) (hbr : br ∈ selected_benefits cat sel)
    (hx : x ∈ benefit_errors cat pkg sel br) : x ∈ clean_errors cat pkg sel := by
  have hsel : br.id ∈ sel := (mem_selected_benefits cat sel br hbr).2
  have hne : sel.isEmpty = false := by
    simp [List.isEmpty_eq_false]
    exact List.ne_nil_of_mem hsel
  rw [clean_errors, hne]
  simp only [Bool.false_eq_true, if_false, List.mem_flatMap]
  exact ⟨br, hbr, hx⟩

theorem mem_clean_errors_iff (cat : Catalog) (pkg : Option Nat) (sel : List Nat)
    (x : String) (hne : sel.isEmpty = false) :
    x ∈ clean_errors cat pkg sel ↔
      ∃ br ∈ selected_benefits cat sel, x ∈ benefit_errors cat pkg sel br := by
  rw [clean_errors, hne]
  simp [List.mem_flatMap]

theorem conflict_violation_of (cat : Catalog) (sel : List Nat) (b1 b2 : Nat)
    (h2 : b2 ∈ cat.benefits.map Benefit.id) (hsel : b2 ∈ sel) (hne : b2 ≠ b1)
    (hrel : conflict_related cat b1 b2 = true) :
    conflict_violation cat sel b1 = true := by
  rw [conflict_violation, List.any_eq_true]
  refine ⟨b2, ?_, ?_⟩
  · exact (mem_benefits_conflicts cat b1 b2).mpr ⟨h2, hne, hrel⟩
  · exact List.elem_iff.mpr hsel

theorem msg_conflicts_mem_benefit_errors (cat : Catalog) (pkg : Option Nat)
    (sel : List Nat) (b : Benefit) :
    msg_conflicts ∈ benefit_errors cat pkg sel b ↔ conflict_violation cat sel b.id = true := by
  unfold benefit_errors
  simp only [List.mem_append]
  constructor
  · rintro ((h | h) | h)
    · revert h
      split
      · simp_all
      · simp
    · revert h
      split
      · split
        · simp [msg_conflicts, msg_package_only_no_package]
        · split
          · simp
          · simp [msg_conflicts, msg_package_only_wrong_package]
      · simp
    · revert h
      split
      · simp
      · simp [msg_conflicts, msg_no_capacity]
  · intro h
    exact Or.inl (Or.inl (by simp [h]))

theorem benefit_errors_eq_nil (cat : Catalog) (pkg : Option Nat) (sel : List Nat)
    (b : Benefit) :
    benefit_errors cat pkg sel b = [] ↔
      (conflict_violation cat sel b.id = false ∧ package_only_violation pkg b = false ∧
       has_capacity b = true) := by
  unfold benefit_errors package_only_violation
  constructor
  · intro h
    simp only [List.append_eq_nil] at h
    obtain ⟨⟨h1, h2⟩, h3⟩ := h
    refine ⟨?_, ?_, ?_⟩
    · revert h1; split <;> simp_all
    · revert h2
      split
      · cases pkg with
        | none => simp
        | some p => split <;> simp_all
      · simp_all
    · revert h3; split <;> simp_all
  · rintro ⟨h1, h2, h3⟩
    rw [h1] at *
    simp only [Bool.false_eq_true, if_false, List.nil_append, h3, if_true, List.append_nil]
    cases hpo : b.package_only with
    | false => simp
    | true =>
      rw [hpo] at h2
      simp only [Bool.true_and] at h2
      cases pkg with
      | none => simp at h2
      | some p =>
        have h2m : b.packages.contains p = true := by simpa using h2
        simp [h2m]
        exact List.elem_iff.mp h2m

theorem msg_no_package_mem_benefit_errors (cat : Catalog) (sel : List Nat) (b : Benefit) :
    msg_package_only_no_package ∈ benefit_errors cat none sel b ↔ b.package_only = true := by
  unfold benefit_errors
  cases hcv : conflict_violation cat sel b.id <;>
    cases hpo : b.package_only <;>
      cases hhc : has_capacity b <;>
        simp [msg_conflicts, msg_package_only_no_package, msg_no_capacity]

theorem msg_no_package_not_mem_some (cat : Catalog) (sel : List Nat) (b : Benefit)
    (p : Nat) : msg_package_only_no_package ∉ benefit_errors cat (some p) sel b := by
  unfold benefit_errors
  cases hcv : conflict_violation cat sel b.id <;>
    cases hpo : b.package_only <;>
      by_cases hcp : p ∈ b.packages <;>
        cases hhc : has_capacity b <;>
          simp [msg_conflicts, msg_package_only_no_package,
            msg_package_only_wrong_package, msg_no_capacity]

theorem msg_wrong_package_mem_benefit_errors (cat : Catalog) (sel : List Nat)
    (b : Benefit) (p : Nat) :
    msg_package_only_wrong_package ∈ benefit_errors cat (some p) sel b ↔
      (b.package_only = true ∧ b.packages.contains p = false) := by
  unfold benefit_errors
  cases hcv : conflict_violation cat sel b.id <;>
    cases hpo : b.package_only <;>
      by_cases hcp : p ∈ b.packages <;>
        cases hhc : has_capacity b <;>
          simp [msg_conflicts, msg_package_only_wrong_package, msg_no_capacity]

theorem msg_no_capacity_mem_benefit_errors (cat : Catalog) (pkg : Option Nat)
    (sel : List Nat) (b : Benefit) :
    msg_no_capacity ∈ benefit_errors cat pkg sel b ↔ has_capacity b = false := by
  unfold benefit_errors
  cases pkg with
  | none =>
    cases hcv : conflict_violation cat sel b.id <;>
      cases hpo : b.package_only <;>
        cases hhc : has_capacity b <;>
          simp [msg_conflicts, msg_package_only_no_package, msg_no_capacity]
  | some p =>
    cases hcv : conflict_violation cat sel b.id <;>
      cases hpo : b.package_only <;>
        by_cases hcp : p ∈ b.packages <;>
          cases hhc : has_capacity b <;>
            simp [msg_conflicts, msg_package_only_no_package,
              msg_package_only_wrong_package, msg_no_capacity]

theorem clean_errors_eq_nil (cat : Catalog) (pkg : Option Nat) (sel : List Nat) :
    clean_errors cat pkg sel = [] ↔
      (sel.isEmpty = false ∧
       ∀ br ∈ selected_benefits cat sel, benefit_errors cat pkg sel br = []) := by
  rw [clean_errors]
  cases hse : sel.isEmpty with
  | true => simp [msg_no_benefits]
  | false => simp [List.flatMap_eq_nil_iff]

/-! Concrete fixtures for the witness and counterexample theorems. -/

/-- Witness benefit: a package-associated benefit of program 10. -/
def wit_benefit_1 : Benefit :=
  { id := 1, name := "Benefit A", description := "a", program := 10,
    packages := [7], package_only := false, capacity := none, soft_capacity := false }

/-- Witness benefit: a second package-associated benefit of program 10. -/
def wit_benefit_2 : Benefit :=
  { id := 2, name := "Benefit B", description := "b", program := 10,
    packages := [7], package_only := false, capacity := none, soft_capacity := false }

/-- Witness benefit: a package-only benefit available in package 7 only. -/
def wit_benefit_po : Benefit :=
  { id := 3, name := "Benefit C", description := "c", program := 10,
    packages := [7], package_only := true, capacity := none, soft_capacity := false }

/-- Witness benefit: a benefit with zero remaining capacity. -/
def wit_benefit_cap : Benefit :=
  { id := 4, name := "Benefit D", description := "d", program := 10,
    packages := [7], package_only := false, capacity := some 0, soft_capacity := false }

/-- Witness benefit: a benefit with zero remaining capacity but soft capacity. -/
def wit_benefit_soft : Benefit :=
  { id := 5, name := "Benefit E", description := "e", program := 10,
    packages := [7], package_only := false, capacity := some 0, soft_capacity := true }

/-- Witness benefit: an add-on associated with no package. -/
def wit_benefit_addon : Benefit :=
  { id := 6, name := "Benefit F", description := "f", program := 10,
    packages := [], package_only := false, capacity := none, soft_capacity := false }

/-- Witness catalog: one program, six benefits, one package, one declared
conflict between benefits 1 and 2 (declared in one direction only). -/
def wit_catalog : Catalog :=
  { programs := [{ id := 10, name := "PSF" }]
    benefits := [wit_benefit_1, wit_benefit_2, wit_benefit_po, wit_benefit_cap,
                 wit_benefit_soft, wit_benefit_addon]
    packages := [{ id := 7, advertise := true }]
    declared_conflicts := [(1, 2)] }

/-! The claim theorems. -/

/-- C1: On SponsorshiptBenefitsForm, a submitted selection containing two
benefits declared as conflicting with each other fails validation, and the
form-level error list (the entry for the "__all__" key) contains the message
"The application has 1 or more benefits that conflicts."; a selection with no
conflicting pair passes the conflict check, so the conflict message never
appears. -/
theorem C1_benefits_form_conflict_check (cat : Catalog) (pkg : Option Nat)
    (sel : List Nat) :
    (∀ br1 br2 : Benefit, (cat.benefits.map Benefit.id).Nodup →
       br1 ∈ cat.benefits → br2 ∈ cat.benefits → br1.id ∈ sel → br2.id ∈ sel →
       br1.id ≠ br2.id →
       ((br1.id, br2.id) ∈ cat.declared_conflicts ∨
        (br2.id, br1.id) ∈ cat.declared_conflicts) →
       (is_valid_submission cat pkg sel = false ∧
        msg_conflicts ∈ clean_errors cat pkg sel)) ∧
    ((∀ a ∈ sel, ∀ b ∈ sel, a ≠ b → conflict_related cat a b = false) →
       msg_conflicts ∉ clean_errors cat pkg sel) := by
  constructor
  · intro br1 br2 hnodup h1 h2 hs1 hs2 hne hdecl
    have hrel : conflict_related cat br1.id br2.id = true := by
      rw [conflict_related, List.any_eq_true]
      cases hdecl with
      | inl h => exact ⟨(br1.id, br2.id), h, by simp⟩
      | inr h => exact ⟨(br2.id, br1.id), h, by simp⟩
    have hcv : conflict_violation cat sel br1.id = true :=
      conflict_violation_of cat sel br1.id br2.id
        (List.mem_map.mpr ⟨br2, h2, rfl⟩) hs2 (Ne.symm hne) hrel
    have hx : msg_conflicts ∈ benefit_errors cat pkg sel br1 :=
      (msg_conflicts_mem_benefit_errors cat pkg sel br1).mpr hcv
    have hbr1 : br1 ∈ selected_benefits cat sel :=
      mem_selected_benefits_of cat sel br1 hnodup h1 hs1
    have hmem : msg_conflicts ∈ clean_errors cat pkg sel :=
      mem_clean_errors_of cat pkg sel br1 msg_conflicts hbr1 hx
    refine ⟨?_, hmem⟩
    rw [is_valid_submission]
    exact List.isEmpty_eq_false.mpr (List.ne_nil_of_mem hmem)
  · intro hnc hmem
    cases hse : sel.isEmpty with
    | true =>
      rw [clean_errors, hse] at hmem
      simp only [if_true, List.mem_singleton] at hmem
      exact absurd hmem (by simp [msg_conflicts, msg_no_benefits])
    | false =>
      obtain ⟨br, hbr, hx⟩ := (mem_clean_errors_iff cat pkg sel msg_conflicts hse).mp hmem
      have hcv := (msg_conflicts_mem_benefit_errors cat pkg sel br).mp hx
      rw [conflict_violation, List.any_eq_true] at hcv
      obtain ⟨c, hc, hcsel⟩ := hcv
      obtain ⟨_, hcne, hcrel⟩ := (mem_benefits_conflicts cat br.id c).mp hc
      have hbrsel : br.id ∈ sel := (mem_selected_benefits cat sel br hbr).2
      have hcsel2 : c ∈ sel := List.elem_iff.mp hcsel
      have := hnc br.id hbrsel c hcsel2 (Ne.symm hcne)
      rw [this] at hcrel
      exact absurd hcrel (by simp)

/-- Witness for C1 at the concrete catalog: selecting benefits 1 and 2,
declared as conflicting in one direction, fails validation with the conflict
message. -/
theorem C1_witness :
    is_valid_submission wit_catalog none [1, 2] = false ∧
    msg_conflicts ∈ clean_errors wit_catalog none [1, 2] :=
  (C1_benefits_form_conflict_check wit_catalog none [1, 2]).1
    wit_benefit_1 wit_benefit_2 (by decide) (by decide) (by decide) (by decide)
    (by decide) (by decide) (Or.inl (by decide))

/-- C2: On SponsorshiptBenefitsForm, a selection including a package-only
benefit fails with the no-package message when no package is chosen, fails
with the wrong-package message when the chosen package does not include the
benefit, and the package-only check passes (neither package-only message
appears) when the chosen package includes every selected package-only
benefit. -/
theorem C2_benefits_form_package_only_check (cat : Catalog) (sel : List Nat) :
    (∀ br : Benefit, (cat.benefits.map Benefit.id).Nodup → br ∈ cat.benefits →
       br.id ∈ sel → br.package_only = true →
       (is_valid_submission cat none sel = false ∧
        msg_package_only_no_package ∈ clean_errors cat none sel)) ∧
    (∀ (br : Benefit) (p : Nat), (cat.benefits.map Benefit.id).Nodup →
       br ∈ cat.benefits → br.id ∈ sel → br.package_only = true →
       br.packages.contains p = false →
       (is_valid_submission cat (some p) sel = false ∧
        msg_package_only_wrong_package ∈ clean_errors cat (some p) sel)) ∧
    (∀ p : Nat,
       (∀ br ∈ selected_benefits cat sel, br.package_only = true →
          br.packages.contains p = true) →
       (msg_package_only_no_package ∉ clean_errors cat (some p) sel ∧
        msg_package_only_wrong_package ∉ clean_errors cat (some p) sel)) := by
  refine ⟨?_, ?_, ?_⟩
  · intro br hnodup h1 hs1 hpo
    have hx : msg_package_only_no_package ∈ benefit_errors cat none sel br :=
      (msg_no_package_mem_benefit_errors cat sel br).mpr hpo
    have hbr : br ∈ selected_benefits cat sel :=
      mem_selected_benefits_of cat sel br hnodup h1 hs1
    have hmem := mem_clean_errors_of cat none sel br msg_package_only_no_package hbr hx
    refine ⟨?_, hmem⟩
    rw [is_valid_submission]
    exact List.isEmpty_eq_false.mpr (List.ne_nil_of_mem hmem)
  · intro br p hnodup h1 hs1 hpo hcp
    have hx : msg_package_only_wrong_package ∈ benefit_errors cat (some p) sel br :=
      (msg_wrong_package_mem_benefit_errors cat sel br p).mpr ⟨hpo, hcp⟩
    have hbr : br ∈ selected_benefits cat sel :=
      mem_selected_benefits_of cat sel br hnodup h1 hs1
    have hmem := mem_clean_errors_of cat (some p) sel br msg_package_only_wrong_package hbr hx
    refine ⟨?_, hmem⟩
    rw [is_valid_submission]
    exact List.isEmpty_eq_false.mpr (List.ne_nil_of_mem hmem)
  · intro p hall
    constructor
    · intro hmem
      cases hse : sel.isEmpty with
      | true =>
        rw [clean_errors, hse] at hmem
        simp only [if_true, List.mem_singleton] at hmem
        exact absurd hmem (by simp [msg_package_only_no_package, msg_no_benefits])
      | false =>
        obtain ⟨br, hbr, hx⟩ :=
          (mem_clean_errors_iff cat (some p) sel msg_package_only_no_package hse).mp hmem
        exact absurd hx (msg_no_package_not_mem_some cat sel br p)
    · intro hmem
      cases hse : sel.isEmpty with
      | true =>
        rw [clean_errors, hse] at hmem
        simp only [if_true, List.mem_singleton] at hmem
        exact absurd hmem (by simp [msg_package_only_wrong_package, msg_no_benefits])
      | false =>
        obtain ⟨br, hbr, hx⟩ :=
          (mem_clean_errors_iff cat (some p) sel msg_package_only_wrong_package hse).mp hmem
        have := (msg_wrong_package_mem_benefit_errors cat sel br p).mp hx
        have hcp := hall br hbr this.1
        rw [hcp] at this
        exact absurd this.2 (by simp)

/-- Witness for C2 at the concrete catalog: selecting the package-only
benefit 3 with no package chosen fails with the no-package message. -/
theorem C2_witness :
    is_valid_submission wit_catalog none [3] = false ∧
    msg_package_only_no_package ∈ clean_errors wit_catalog none [3] :=
  (C2_benefits_form_package_only_check wit_catalog [3]).1
    wit_benefit_po (by decide) (by decide) (by decide) (by decide)

/-- C3: On SponsorshiptBenefitsForm, a selection including a benefit whose
remaining capacity is zero fails validation with the no-capacity message,
unless the benefit has soft capacity, in which case the capacity check is
satisfied and the selection validates when no other constraint is violated. -/
theorem C3_benefits_form_capacity_check (cat : Catalog) (pkg : Option Nat)
    (sel : List Nat) :
    (∀ br : Benefit, (cat.benefits.map Benefit.id).Nodup → br ∈ cat.benefits →
       br.id ∈ sel → br.capacity = some 0 → br.soft_capacity = false →
       (is_valid_submission cat pkg sel = false ∧
        msg_no_capacity ∈ clean_errors cat pkg sel)) ∧
    (∀ br : Benefit, br.capacity = some 0 → br.soft_capacity = true →
       has_capacity br = true) ∧
    (sel.isEmpty = false →
     (∀ a ∈ sel, ∀ b ∈ sel, a ≠ b → conflict_related cat a b = false) →
     (∀ br ∈ selected_benefits cat sel, package_only_violation pkg br = false) →
     (∀ br ∈ selected_benefits cat sel, br.soft_capacity = true) →
     is_valid_submission cat pkg sel = true) := by
  refine ⟨?_, ?_, ?_⟩
  · intro br hnodup h1 hs1 hcap hsoft
    have hnc : has_capacity br = false := by
      rw [has_capacity, hcap, hsoft]
      simp
    have hx : msg_no_capacity ∈ benefit_errors cat pkg sel br :=
      (msg_no_capacity_mem_benefit_errors cat pkg sel br).mpr hnc
    have hbr : br ∈ selected_benefits cat sel :=
      mem_selected_benefits_of cat sel br hnodup h1 hs1
    have hmem := mem_clean_errors_of cat pkg sel br msg_no_capacity hbr hx
    refine ⟨?_, hmem⟩
    rw [is_valid_submission]
    exact List.isEmpty_eq_false.mpr (List.ne_nil_of_mem hmem)
  · intro br hcap hsoft
    rw [has_capacity, hcap, hsoft]
    simp
  · intro hse hnc hpo hsoft
    rw [is_valid_submission, List.isEmpty_iff]
    rw [clean_errors_eq_nil]
    refine ⟨hse, ?_⟩
    intro br hbr
    rw [benefit_errors_eq_nil]
    refine ⟨?_, hpo br hbr, ?_⟩
    · cases hcv : conflict_violation cat sel br.id with
      | false => rfl
      | true =>
        rw [conflict_violation, List.any_eq_true] at hcv
        obtain ⟨c, hc, hcsel⟩ := hcv
        obtain ⟨_, hcne, hcrel⟩ := (mem_benefits_conflicts cat br.id c).mp hc
        have hbrsel : br.id ∈ sel := (mem_selected_benefits cat sel br hbr).2
        have hcsel2 : c ∈ sel := List.elem_iff.mp hcsel
        have := hnc br.id hbrsel c hcsel2 (Ne.symm hcne)
        rw [this] at hcrel
        exact absurd hcrel (by simp)
    · rw [has_capacity]
      cases hcap : br.capacity with
      | none => rfl
      | some c =>
        rw [hsoft br hbr]
        simp

/-- Witness for C3 at the concrete catalog: selecting benefit 4, which has
remaining capacity zero and no soft capacity, fails with the no-capacity
message; and selecting only benefit 5, which has capacity zero but soft
capacity, validates. -/
theorem C3_witness :
    (is_valid_submission wit_catalog none [4] = false ∧
     msg_no_capacity ∈ clean_errors wit_catalog none [4]) ∧
    is_valid_submission wit_catalog none [5] = true :=
  ⟨(C3_benefits_form_capacity_check wit_catalog none [4]).1
      wit_benefit_cap (by decide) (by decide) (by decide) (by decide) (by decide),
   (C3_benefits_form_capacity_check wit_catalog none [5]).2.2
      (by decide) (by decide) (by decide) (by decide)⟩

/-- C4 counterexample: on the concrete catalog the empty selection passes the
conflict check, the package-only check and the capacity check, yet the form
rejects it, so the three membership predicates alone do not determine the
validation outcome. -/
theorem C4_counterexample :
    any_conflict wit_catalog [] = false ∧
    any_package_only_violation wit_catalog none [] = false ∧
    any_capacity_violation wit_catalog [] = false ∧
    is_valid_submission wit_catalog none [] = false := by
  decide

/-- C4 (amended): the validation outcome of SponsorshiptBenefitsForm on a
submitted selection is determined by exactly four conditions: the selection
must be non-empty, and the conflict check, the package-only check and the
capacity check must all pass; no other form-level condition makes a selection
invalid. -/
theorem C4_benefits_form_validation_decomposition (cat : Catalog) (pkg : Option Nat)
    (sel : List Nat) :
    is_valid_submission cat pkg sel = true ↔
      (sel.isEmpty = false ∧ any_conflict cat sel = false ∧
       any_package_only_violation cat pkg sel = false ∧
       any_capacity_violation cat sel = false) := by
  rw [is_valid_submission, List.isEmpty_iff, clean_errors_eq_nil]
  rw [any_conflict, any_package_only_violation, any_capacity_violation]
  rw [List.any_eq_false, List.any_eq_false, List.any_eq_false]
  constructor
  · rintro ⟨hse, hall⟩
    refine ⟨hse, ?_, ?_, ?_⟩ <;> intro br hbr <;>
      have h := (benefit_errors_eq_nil cat pkg sel br).mp (hall br hbr)
    · simp [h.1]
    · simp [h.2.1]
    · simp [h.2.2]
  · rintro ⟨hse, h1, h2, h3⟩
    refine ⟨hse, ?_⟩
    intro br hbr
    rw [benefit_errors_eq_nil]
    refine ⟨?_, ?_, ?_⟩
    · have := h1 br hbr
      simpa using this
    · have := h2 br hbr
      simpa using this
    · have := h3 br hbr
      simpa using this

/-- Witness for C4 (amended) at a concrete input: selecting benefit 1 alone
is valid, and the four conditions hold of it. -/
theorem C4_witness :
    is_valid_submission wit_catalog none [1] = true ↔
      (List.isEmpty [1] = false ∧ any_conflict wit_catalog [1] = false ∧
       any_package_only_violation wit_catalog none [1] = false ∧
       any_capacity_violation wit_catalog [1] = false) :=
  C4_benefits_form_validation_decomposition wit_catalog none [1]

/-- C5: SponsorshiptBenefitsForm groups benefit selection by sponsorship
program: for every program the form has a choice field named after the slug of
the program name, labelled with the program name followed by " Benefits",
whose choices are exactly the ids of the package-associated benefits of that
program; every choice of a program field is a package-associated benefit; and
a benefit associated with no package appears among the add-on choices and in
no program field. -/
theorem C5_benefits_form_program_grouping (cat : Catalog)
    (hnodup : (cat.benefits.map Benefit.id).Nodup) :
    (∀ p ∈ cat.programs,
       ({ name := ("benefits_") ++ slug_under p.name
          label := p.name ++ (" Benefits")
          choices := ((with_packages cat).filter (fun b => b.program == p.id)).map
            Benefit.id } : FormField) ∈ program_fields cat) ∧
    (∀ f ∈ program_fields cat, ∀ bid ∈ f.choices,
       ∃ b ∈ cat.benefits, b.id = bid ∧ b.packages.isEmpty = false) ∧
    (∀ b ∈ cat.benefits, (b.id ∈ add_ons_choices cat ↔ b.packages.isEmpty = true)) ∧
    (∀ b ∈ cat.benefits, b.packages.isEmpty = true →
       ∀ f ∈ program_fields cat, b.id ∉ f.choices) := by
  refine ⟨?_, ?_, ?_, ?_⟩
  · intro p hp
    rw [program_fields, List.mem_map]
    exact ⟨p, hp, rfl⟩
  · intro f hf bid hbid
    rw [program_fields, List.mem_map] at hf
    obtain ⟨p, hp, hpf⟩ := hf
    rw [← hpf] at hbid
    simp only [List.mem_map] at hbid
    obtain ⟨b, hb, hbid2⟩ := hbid
    rw [List.mem_filter] at hb
    have hwp := hb.1
    rw [with_packages, List.mem_filter] at hwp
    refine ⟨b, hwp.1, hbid2, ?_⟩
    have := hwp.2
    simpa using this
  · intro b hb
    constructor
    · intro hmem
      rw [add_ons_choices, List.mem_map] at hmem
      obtain ⟨b2, hb2, hid⟩ := hmem
      rw [List.mem_filter] at hb2
      have : b2 = b := List.inj_on_of_nodup_map hnodup hb2.1 hb hid
      rw [← this]
      exact hb2.2
    · intro hempty
      rw [add_ons_choices, List.mem_map]
      exact ⟨b, List.mem_filter.mpr ⟨hb, hempty⟩, rfl⟩
  · intro b hb hempty f hf hmem
    rw [program_fields, List.mem_map] at hf
    obtain ⟨p, hp, hpf⟩ := hf
    rw [← hpf] at hmem
    simp only [List.mem_map] at hmem
    obtain ⟨b2, hb2, hid⟩ := hmem
    rw [List.mem_filter] at hb2
    have hwp := hb2.1
    rw [with_packages, List.mem_filter] at hwp
    have : b2 = b := List.inj_on_of_nodup_map hnodup hwp.1 hb hid
    rw [this] at hwp
    rw [hempty] at hwp
    exact absurd hwp.2 (by simp)

/-- Witness for C5 at the concrete catalog: the program named "PSF" yields
the field named "benefits_psf" labelled "PSF Benefits" offering the
package-associated benefits 1 to 5, and the add-on benefit 6 appears among
the add-on choices. -/
theorem C5_witness :
    ({ name := ("benefits_psf"), label := ("PSF Benefits"),
       choices := [1, 2, 3, 4, 5] } : FormField) ∈ program_fields wit_catalog ∧
    (6 ∈ add_ons_choices wit_catalog ↔ wit_benefit_addon.packages.isEmpty = true) := by
  constructor
  · have h := (C5_benefits_form_program_grouping wit_catalog (by decide)).1
      { id := 10, name := ("PSF") } (by decide)
    simpa using h
  · exact (C5_benefits_form_program_grouping wit_catalog (by decide)).2.2.1
      wit_benefit_addon (by decide)

/-- C6: SponsorRequiredAssetsForm is built at runtime from the required-asset
configurations of the sponsorship: with no required assets it has zero fields
and `has_input` is false; otherwise it has exactly one field per required
asset, of the kind the polymorphic configuration of the asset produces; and
passing `required_assets_ids` restricts the fields to exactly the listed
assets. -/
theorem C6_required_assets_form_fields (s : SponsorshipAssets) :
    (s.required_assets = [] →
       required_form_fields s none = [] ∧ has_input s none = false) ∧
    ((required_form_fields s none).length = s.required_assets.length) ∧
    (∀ a ∈ s.required_assets,
       (slug_under a.internal_name, as_form_field a) ∈ required_form_fields s none) ∧
    (∀ l a, a ∈ form_assets s (some l) ↔
       (a ∈ s.required_assets ∧ l.contains a.pk = true)) ∧
    (∀ l, required_form_fields s (some l) =
       (s.required_assets.filter (fun a => l.contains a.pk)).map
         (fun a => (slug_under a.internal_name, as_form_field a))) := by
  refine ⟨?_, ?_, ?_, ?_, ?_⟩
  · intro h
    rw [required_form_fields, form_assets, h]
    simp [has_input, required_form_fields, form_assets, h]
  · rw [required_form_fields, form_assets, List.length_map]
  · intro a ha
    rw [required_form_fields, form_assets, List.mem_map]
    exact ⟨a, ha, rfl⟩
  · intro l a
    rw [form_assets, List.mem_filter]
  · intro l
    rw [required_form_fields, form_assets]

/-- Witness for C6: a sponsorship with one text and one image required asset
yields the two expected fields, and the no-asset case yields none. -/
theorem C6_witness :
    ((slug_under ("Text Input"), AssetKind.text) ∈
       required_form_fields
         { required_assets := [{ pk := 1, internal_name := ("Text Input"),
                                 kind := AssetKind.text },
                               { pk := 2, internal_name := ("Image Input"),
                                 kind := AssetKind.img }] } none) ∧
    (required_form_fields { required_assets := [] } none = [] ∧
     has_input { required_assets := [] } none = false) := by
  constructor
  · exact (C6_required_assets_form_fields
      { required_assets := [{ pk := 1, internal_name := ("Text Input"),
                              kind := AssetKind.text },
                            { pk := 2, internal_name := ("Image Input"),
                              kind := AssetKind.img }] }).2.2.1
      { pk := 1, internal_name := ("Text Input"), kind := AssetKind.text } (by decide)
  · exact (C6_required_assets_form_fields { required_assets := [] }).1 rfl

/-- C7: the sponsorship lifecycle advances apply, then review, then approve
or reject, then contract, then finalize: every lifecycle step strictly
advances the phase order; once a sponsorship is no longer in the APPLIED
status, its package, start date, end date, level name and fee are among the
read-only fields computed by SponsorshipAdmin; and once a contract is no
longer a draft, its sponsor info, sponsor contact, benefits list and legal
clauses are among the read-only fields computed by ContractModelAdmin. -/
theorem C7_lifecycle_and_readonly_fields :
    (∀ ph ph2 : LifecyclePhase, ph2 ∈ phase_step ph → phase_rank ph < phase_rank ph2) ∧
    (∀ st : SponsorshipStatus, st ≠ SponsorshipStatus.applied →
       ∀ f ∈ sponsorship_admin_extra_readonly,
         f ∈ sponsorship_admin_readonly_fields (some st)) ∧
    (∀ st : ContractStatus, st.is_draft = false →
       ∀ f ∈ contract_admin_extra_readonly,
         f ∈ contract_admin_readonly_fields (some st)) := by
  refine ⟨?_, ?_, ?_⟩
  · intro ph ph2 hstep
    cases ph <;> simp [phase_step] at hstep <;> rw [hstep] <;> decide
  · intro st hst f hf
    rw [sponsorship_admin_readonly_fields]
    refine List.mem_append.mpr (Or.inr ?_)
    rw [if_pos hst]
    exact hf
  · intro st hst f hf
    rw [contract_admin_readonly_fields]
    refine List.mem_append.mpr (Or.inr ?_)
    have : (!st.is_draft) = true := by simp [hst]
    rw [if_pos this]
    exact hf

/-- Witness for C7 at concrete inputs: the apply phase steps to the review
phase and advances the order; an approved sponsorship has the package field
read-only; an executed contract has the benefits list read-only. -/
theorem C7_witness :
    phase_rank LifecyclePhase.applyPhase < phase_rank LifecyclePhase.review ∧
    ("package") ∈ sponsorship_admin_readonly_fields (some SponsorshipStatus.approved) ∧
    ("benefits_list") ∈ contract_admin_readonly_fields (some ContractStatus.executed) :=
  ⟨C7_lifecycle_and_readonly_fields.1 LifecyclePhase.applyPhase LifecyclePhase.review
     (by decide),
   C7_lifecycle_and_readonly_fields.2.1 SponsorshipStatus.approved (by decide)
     ("package") (by decide),
   C7_lifecycle_and_readonly_fields.2.2 ContractStatus.executed (by decide)
     ("benefits_list") (by decide)⟩

/-- C8: the benefits_conflicts mapping of SponsorshiptBenefitsForm is
symmetric: for catalog benefits b1 and b2, b2 is in the conflict list of b1
if and only if b1 is in the conflict list of b2, even when the conflict was
declared in only one direction. -/
theorem C8_benefits_conflicts_symmetric (cat : Catalog) (b1 b2 : Nat)
    (h1 : b1 ∈ cat.benefits.map Benefit.id) (h2 : b2 ∈ cat.benefits.map Benefit.id) :
    b2 ∈ benefits_conflicts cat b1 ↔ b1 ∈ benefits_conflicts cat b2 := by
  rw [mem_benefits_conflicts, mem_benefits_conflicts]
  rw [conflict_related_symm cat b2 b1]
  constructor
  · rintro ⟨_, hne, hrel⟩
    exact ⟨h1, Ne.symm hne, hrel⟩
  · rintro ⟨_, hne, hrel⟩
    exact ⟨h2, Ne.symm hne, hrel⟩

/-- Witness for C8 at the concrete catalog: the conflict between benefits 1
and 2 is declared only as the pair (1, 2), and each appears in the conflict
list of the other. -/
theorem C8_witness :
    2 ∈ benefits_conflicts wit_catalog 1 ↔ 1 ∈ benefits_conflicts wit_catalog 2 :=
  C8_benefits_conflicts_symmetric wit_catalog 1 2 (by decide) (by decide)

/-- C9: saving SponsorBenefitAdminInlineForm over an existing SponsorBenefit
with the selected sponsorship benefit unchanged leaves its name, description,
program and features unchanged, whatever the current state of the catalog
benefit, and writes only the internal value; selecting a different
sponsorship benefit re-copies name, description and program from the new
benefit and rebuilds the features from its configurations. -/
theorem C9_inline_form_save_frame (inst : SponsorBenefitRec) (sel : CatalogBenefit)
    (v : Int) :
    (sel.id = inst.sponsorship_benefit →
       ((inline_form_save inst sel v).name = inst.name ∧
        (inline_form_save inst sel v).description = inst.description ∧
        (inline_form_save inst sel v).program = inst.program ∧
        (inline_form_save inst sel v).features = inst.features ∧
        (inline_form_save inst sel v).sponsorship_benefit = inst.sponsorship_benefit ∧
        (inline_form_save inst sel v).benefit_internal_value = v)) ∧
    (sel.id ≠ inst.sponsorship_benefit →
       ((inline_form_save inst sel v).name = sel.name ∧
        (inline_form_save inst sel v).description = sel.description ∧
        (inline_form_save inst sel v).program = sel.program ∧
        (inline_form_save inst sel v).features = sel.feature_configs ∧
        (inline_form_save inst sel v).sponsorship_benefit = sel.id ∧
        (inline_form_save inst sel v).benefit_internal_value = v)) := by
  constructor
  · intro h
    rw [inline_form_save, if_pos (by simp [h])]
    exact ⟨rfl, rfl, rfl, rfl, rfl, rfl⟩
  · intro h
    rw [inline_form_save, if_neg (by simp [h])]
    exact ⟨rfl, rfl, rfl, rfl, rfl, rfl⟩

/-- Witness for C9 at concrete records: re-saving with the same catalog
benefit selected keeps the stored name even though the catalog benefit was
renamed, and selecting a different catalog benefit copies the new name. -/
theorem C9_witness :
    ((inline_form_save
        { sponsorship := 1, sponsorship_benefit := 9, name := ("old name"),
          description := ("old"), program := 10, benefit_internal_value := 100,
          features := [AssetKind.img] }
        { id := 9, name := ("new name"), description := ("new"), program := 10,
          feature_configs := [AssetKind.text] } 200).name = ("old name")) ∧
    ((inline_form_save
        { sponsorship := 1, sponsorship_benefit := 9, name := ("old name"),
          description := ("old"), program := 10, benefit_internal_value := 100,
          features := [AssetKind.img] }
        { id := 11, name := ("new name"), description := ("new"), program := 10,
          feature_configs := [AssetKind.text] } 200).features = [AssetKind.text]) :=
  ⟨((C9_inline_form_save_frame
      { sponsorship := 1, sponsorship_benefit := 9, name := ("old name"),
        description := ("old"), program := 10, benefit_internal_value := 100,
        features := [AssetKind.img] }
      { id := 9, name := ("new name"), description := ("new"), program := 10,
        feature_configs := [AssetKind.text] } 200).1 (by decide)).1,
   ((C9_inline_form_save_frame
      { sponsorship := 1, sponsorship_benefit := 9, name := ("old name"),
        description := ("old"), program := 10, benefit_internal_value := 100,
        features := [AssetKind.img] }
      { id := 11, name := ("new name"), description := ("new"), program := 10,
        feature_configs := [AssetKind.text] } 200).2 (by decide)).2.2.2.1⟩

/-- C10: SendSponsorshipNotificationForm validates exactly when one content
source is supplied (given at least one contact type): supplying both a
notification template and custom content yields a form-level error, supplying
neither yields a form-level error, and supplying only custom content with a
subject validates, with get_notification returning an unsaved notification
carrying that content and subject. -/
theorem C10_send_notification_form_exclusive_source
    (tmpl : List (Nat × String × String)) (d : NotificationFormData)
    (hct : d.contact_types.isEmpty = false) :
    (send_form_is_valid d = true ↔ d.notification.isSome = d.content.isEmpty) ∧
    (d.notification.isSome = true → d.content.isEmpty = false →
       (send_form_is_valid d = false ∧ send_form_level_errors d ≠ [])) ∧
    (d.notification = none → d.content.isEmpty = true →
       (send_form_is_valid d = false ∧ send_form_level_errors d ≠ [])) ∧
    (d.notification = none → d.content.isEmpty = false →
       (send_form_is_valid d = true ∧
        get_notification tmpl d =
          some { pk := none, content := d.content, subject := d.subject })) := by
  have hval : send_form_is_valid d = (send_form_level_errors d).isEmpty := by
    rw [send_form_is_valid, hct]
    simp
  refine ⟨?_, ?_, ?_, ?_⟩
  · rw [hval, send_form_level_errors]
    cases hn : d.notification <;> cases hc : d.content.isEmpty <;> simp
  · intro hn hc
    rw [hval, send_form_level_errors]
    cases hn2 : d.notification with
    | none => rw [hn2] at hn; exact absurd hn (by simp)
    | some t => rw [hc]; simp
  · intro hn hc
    rw [hval, send_form_level_errors, hn, hc]
    simp
  · intro hn hc
    refine ⟨?_, ?_⟩
    · rw [hval, send_form_level_errors, hn, hc]
      simp
    · rw [get_notification, hn]

/-- Witness for C10 at a concrete submission: custom content with a subject
and one contact type validates and yields an unsaved notification with that
content and subject. -/
theorem C10_witness :
    (send_form_is_valid
       { notification := none, content := ("content"), subject := ("subject"),
         contact_types := [("manager")] } = true ∧
     get_notification []
       { notification := none, content := ("content"), subject := ("subject"),
         contact_types := [("manager")] } =
       some { pk := none, content := ("content"), subject := ("subject") }) :=
  (C10_send_notification_form_exclusive_source []
    { notification := none, content := ("content"), subject := ("subject"),
      contact_types := [("manager")] } (by decide)).2.2.2 rfl (by decide)

end Sponsors
